import Mathlib

/-!
Verification of the directive protocol, sandboxed tool layer and control
loop of `angry_ai.py`.  Python string operations are shallowly embedded as
executable Lean functions over `List Char` (Python `str` is a sequence of
code points, as is `String.data`).  Regular-expression searches from the
source are embedded operationally: each concrete pattern is translated to
a deterministic scanning function realising Python `re.search` /
`re.finditer` semantics (leftmost match, greedy/lazy quantifiers) for that
pattern.
-/

set_option maxRecDepth 40000

namespace AngryAI

/-- Python `\s` for the ASCII range (space, tab, newline, carriage return,
vertical tab, form feed); the inputs handled by the program are ASCII. -/
def isPySpace (c : Char) : Bool :=
  c = ' ' || c = '\t' || c = '\n' || c = '\x0d' || c = '\x0b' || c = '\x0c'

/-- Python `str.strip()` on a list of characters. -/
def pyStripL (l : List Char) : List Char :=
  ((l.dropWhile isPySpace).reverse.dropWhile isPySpace).reverse

/-- Python `str.strip()`. -/
def pyStrip (s : String) : String :=
  String.mk (pyStripL s.data)

/-- Python `str.lower()` (ASCII range). -/
def pyLower (s : String) : String :=
  String.mk (s.data.map Char.toLower)

/-- Python `s.startswith(pre)`. -/
def startsWithS (s pre : String) : Bool :=
  pre.data.isPrefixOf s.data

/-- Python `s.endswith(suf)`. -/
def endsWithS (s suf : String) : Bool :=
  suf.data.isSuffixOf s.data

/-- Python `s.split(sep)` for a single-character separator: keeps empty
pieces, `""` yields `[""]`. -/
def splitOnCharL (sep : Char) : List Char → List (List Char)
  | [] => [[]]
  | c :: cs =>
    let r := splitOnCharL sep cs
    if c = sep then [] :: r
    else
      match r with
      | h :: t => (c :: h) :: t
      | [] => [[c]]

/-- Python `s.split(sep)` for a single-character separator. -/
def splitChar (s : String) (sep : Char) : List String :=
  (splitOnCharL sep s.data).map String.mk

/-- Python `sep.join(pieces)` on character lists. -/
def joinSep (sep : List Char) : List (List Char) → List Char
  | [] => []
  | [x] => x
  | x :: y :: ys => x ++ sep ++ joinSep sep (y :: ys)

/-- Python `sep.join(pieces)`. -/
def joinStr (sep : String) (l : List String) : String :=
  String.mk (joinSep sep.data (l.map String.data))

/-- Consume an exact literal from the front of a character list
(the embedding of matching a literal piece of a regex). -/
def dropLit : List Char → List Char → Option (List Char)
  | [], cs => some cs
  | _ :: _, [] => none
  | p :: ps, c :: cs => if c = p then dropLit ps cs else none

/-- Helper for Python `in` on strings: is `p` a substring of `h`?  Scans
every suffix for a prefix match. -/
def hasSubAux (p : List Char) : List Char → Bool
  | [] => p.isPrefixOf []
  | c :: cs => p.isPrefixOf (c :: cs) || hasSubAux p cs

/-- Python `pat in hay` for strings. -/
def hasSub (hay pat : String) : Bool :=
  hasSubAux pat.data hay.data

/-- Python `str.count` for a non-empty pattern `pc :: pr`: non-overlapping
occurrences, scanning left to right.  Recursion is driven by a fuel
argument so that the function reduces definitionally; every step consumes
at least one character, so fuel `length hay` always suffices. -/
def countAux (pc : Char) (pr : List Char) : Nat → List Char → Nat
  | 0, _ => 0
  | _ + 1, [] => 0
  | fuel + 1, c :: cs =>
    if (pc :: pr).isPrefixOf (c :: cs) then
      1 + countAux pc pr fuel (cs.drop pr.length)
    else
      countAux pc pr fuel cs

/-- Python `hay.count(pat)`; for the empty pattern Python returns
`len(hay) + 1`. -/
def countOcc (hay pat : String) : Nat :=
  match pat.data with
  | [] => hay.data.length + 1
  | pc :: pr => countAux pc pr hay.data.length hay.data

/-- Python `hay.replace(old, new)` for a non-empty `old` (fuel-driven as
for `countAux`). -/
def replaceAux (pc : Char) (pr : List Char) (new : List Char) : Nat → List Char → List Char
  | 0, l => l
  | _ + 1, [] => []
  | fuel + 1, c :: cs =>
    if (pc :: pr).isPrefixOf (c :: cs) then
      new ++ replaceAux pc pr new fuel (cs.drop pr.length)
    else
      c :: replaceAux pc pr new fuel cs

/-- Python `hay.replace(old, new)`; with `old = ""` Python inserts `new`
before every character and at the end. -/
def pyReplace (hay old new : String) : String :=
  match old.data with
  | [] => String.mk (new.data ++ hay.data.flatMap (fun c => c :: new.data))
  | pc :: pr => String.mk (replaceAux pc pr new.data hay.data.length hay.data)

/-- Python `str.split()` (no arguments): split on runs of whitespace,
discarding empty pieces (fuel-driven as for `countAux`). -/
def pySplitWsL : Nat → List Char → List String
  | 0, _ => []
  | _ + 1, [] => []
  | fuel + 1, c :: cs =>
    if isPySpace c then pySplitWsL fuel cs
    else
      let w := (c :: cs).takeWhile (fun x => !isPySpace x)
      String.mk w :: pySplitWsL fuel ((c :: cs).drop w.length)

/-- Python `str.split()`. -/
def pySplitWs (s : String) : List String :=
  pySplitWsL s.data.length s.data

/-- Python `str.splitlines()` restricted to `\n` separators (the only line
terminator occurring in the data handled here): interior empty lines are kept,
a trailing terminator produces no final empty line, `""` gives `[]`. -/
def pySplitLines (s : String) : List String :=
  if s = "" then []
  else
    let parts := splitChar s '\n'
    if endsWithS s "\n" then parts.dropLast else parts

/-- Combinator `firstMatch f l` applies the position matcher `f` to every suffix of
`l`, leftmost first — the embedding of `re.search` position scanning. -/
def firstMatch {α : Type} (f : List Char → Option α) : List Char → Option α
  | [] => f []
  | c :: cs =>
    match f (c :: cs) with
    | some a => some a
    | none => firstMatch f cs

/-- Last element of a non-empty list given head and tail (the `[-1]`
selection of `re.finditer` results). -/
def lastOf {α : Type} (m : α) : List α → α
  | [] => m
  | m' :: ms => lastOf m' ms

/-! ## PathSandbox -/

/-- CPython `posixpath.normpath`, translated clause by clause. -/
def posixNormpath (path : String) : String :=
  if path = "" then "."
  else
    let initialSlashes : Nat :=
      if startsWithS path "/" then
        if startsWithS path "//" && !startsWithS path "///" then 2 else 1
      else 0
    let comps := splitChar path '/'
    let newComps := comps.foldl
      (fun acc comp =>
        if comp = "" || comp = "." then acc
        else if comp ≠ ".." || (initialSlashes = 0 && acc = []) ||
                (acc ≠ [] && acc.getLast? = some "..") then
          acc ++ [comp]
        else if acc ≠ [] then acc.dropLast
        else acc)
      []
    let joined := joinStr "/" newComps
    let full := String.mk (List.replicate initialSlashes '/') ++ joined
    if full = "" then "." else full

/-- The null character checked by the null-byte rule of the Python source. -/
def nullChar : Char := Char.ofNat 0

/-- Embedding of `validate_relative_path` from `angry_ai.py` (lines 231–258); raising
`ValueError(msg)` is embedded as `.error msg`. -/
def validate_relative_path (path : String) : Except String Unit :=
  if path = "" then .error "Path cannot be empty"
  else if startsWithS path "/" then
    .error ("Path must be relative, not absolute: " ++ path)
  else if hasSub path (String.mk [nullChar]) then
    .error "Path contains null byte"
  else
    let normalized := posixNormpath path
    if startsWithS normalized ".." || hasSub normalized "/.." then
      .error ("Path attempts to escape repo root: " ++ path)
    else if startsWithS path "~" then
      .error ("Path cannot use home directory expansion: " ++ path)
    else .ok ()

/-- Embedding of `resolve_repo_path` from `angry_ai.py` (lines 261–290), modelled
symlink-free: with no symbolic links on the path, `Path.resolve()` is
lexical canonicalisation of the joined absolute path, i.e. `posixNormpath`;
`relative_to` succeeds exactly when the canonical root is a path prefix of
the canonical target. -/
def resolve_repo_path (repo_root relative_path : String) : Except String String :=
  let rootResolved := posixNormpath repo_root
  let target := posixNormpath (repo_root ++ "/" ++ relative_path)
  if target = rootResolved || startsWithS target (rootResolved ++ "/") then
    .ok target
  else
    .error ("Path \x27" ++ relative_path ++ "\x27 resolves outside repo root: " ++ target)

/-- Result of one `agent_loop` dispatch arm: either an `error` ToolResult
string fed back to the transcript, or an invocation of the underlying tool
on the resolved target. -/
inductive DispatchResult where
  | toolError (msg : String)
  | invoked (target : String)
deriving DecidableEq, Repr

/-- The `READ_FILE` dispatch arm of `agent_loop` (lines 1614–1630): the
path argument is resolved through `resolve_repo_path`; a `ValueError`
becomes a `READ_FILE_ERROR` ToolResult rather than a crash.  The actual
file read is abstracted as `invoked`. -/
def read_file_dispatch (arg repo_root : String) : DispatchResult :=
  match resolve_repo_path repo_root arg with
  | .error e => .toolError ("READ_FILE_ERROR: " ++ e ++ "\n")
  | .ok target => .invoked target

/-! ## DirectiveParser -/

/-- The dataclass `ParsedAction` from `angry_ai.py` (lines 221–228). -/
structure ParsedAction where
  action : String
  argument : Option String
  patch : Option String
  old_str : Option String
  new_str : Option String
  content : Option String
deriving DecidableEq, Repr

/-- The character class `[A-Z_]`. -/
def isUpperUnd (c : Char) : Bool :=
  ('A' ≤ c && c ≤ 'Z') || c = '_'

/-- Match `ACTION_RE = ^ACTION:\s*([A-Z_]+)(.*)$` (MULTILINE) at one
position: the literal `ACTION:`, a greedy whitespace run (which in Python
may cross newlines, since `\s` includes `\n`), a non-empty `[A-Z_]` token,
then the remainder of that line.  Returns group 1, group 2 and the suffix
of the input after the match end. -/
def matchActionAt (cs : List Char) : Option (String × String × List Char) :=
  match dropLit "ACTION:".data cs with
  | none => none
  | some cs0 =>
    let cs1 := cs0.dropWhile isPySpace
    let tok := cs1.takeWhile isUpperUnd
    if tok = [] then none
    else
      let cs2 := cs1.drop tok.length
      let rest := cs2.takeWhile (fun c => c ≠ '\n')
      let after := cs2.drop rest.length
      some (String.mk tok, String.mk rest, after)

/-- Embedding of `re.finditer(ACTION_RE, ...)`: scan the text, attempting a match at
every line start, resuming after each match end (matches do not overlap).
Each recursive step consumes at least one character, so fuel
`length + 1` never runs out. -/
def actionScanF : Nat → List Char → Bool → List (String × String × String)
  | 0, _, _ => []
  | fuel + 1, cs, atLineStart =>
    if atLineStart then
      match matchActionAt cs with
      | some (n, r, after) => (n, r, String.mk after) :: actionScanF fuel after false
      | none =>
        match cs with
        | [] => []
        | c :: cs' => actionScanF fuel cs' (c = '\n')
    else
      match cs with
      | [] => []
      | c :: cs' => actionScanF fuel cs' (c = '\n')

/-- All `ACTION_RE` matches of a model reply, in order: for each,
(group 1, group 2, text after the match end). -/
def actionMatches (s : String) : List (String × String × String) :=
  actionScanF (s.data.length + 1) s.data true

/-- Index of the last `'\n'` in a character list, if any. -/
def lastIdxNl : List Char → Option Nat
  | [] => none
  | c :: cs =>
    match lastIdxNl cs with
    | some k => some (k + 1)
    | none => if c = '\n' then some 0 else none

/-- Combinator `findPos p l`: capture the (lazy-shortest) prefix of `l` up to the
first position whose suffix satisfies `p`; `none` if no position does. -/
def findPos (p : List Char → Bool) : List Char → Option (List Char)
  | [] => if p [] then some [] else none
  | c :: cs => if p (c :: cs) then some [] else (findPos p cs).map (c :: ·)

/-- Closing condition of `\n\s*>>>`: the suffix starts with a newline
followed by a (greedy) whitespace run and the literal `>>>`. -/
def strictCloseHere (l : List Char) : Bool :=
  match l with
  | '\n' :: cs => ">>>".data.isPrefixOf (cs.dropWhile isPySpace)
  | _ => false

/-- Match `LABEL:\s*\n?\s*<<<\s*\n(.*?)\n\s*>>>` (DOTALL) at one position
(`label` carries the trailing colon).  `\s*\n?\s*` is a single whitespace
run (each piece matches only `\s`); `\s*\n` consumes the run after `<<<`
up to its last newline (greedy `\s*` backtracks to the latest `\n`); the
lazy group then runs to the first position closing with `\n\s*>>>`. -/
def matchStrictAt (label : List Char) (cs : List Char) : Option String :=
  match dropLit label cs with
  | none => none
  | some cs0 =>
    match dropLit "<<<".data (cs0.dropWhile isPySpace) with
    | none => none
    | some cs2 =>
      let w := cs2.takeWhile isPySpace
      match lastIdxNl w with
      | none => none
      | some k => (findPos strictCloseHere (cs2.drop (k + 1))).map String.mk

/-- Embedding of `re.search(LABEL:\s*\n?\s*<<<\s*\n(.*?)\n\s*>>>, body, DOTALL)`,
returning group 1 — the OLD/NEW/CONTENT block extraction of
`parse_action` (lines 362, 379, 405). -/
def strictBlock (label : String) (body : String) : Option String :=
  firstMatch (matchStrictAt (label ++ ":").data) body.data

/-- Embedding of `re.search(<<<\n(.*?)\n>>>, body, DOTALL)`, returning group 1 — the
block extraction for `RUN_COMMAND`, `EDIT_MULTIPLE` and `GIT_COMMIT`
(lines 428, 441, 454). -/
def simpleBlock (body : String) : Option String :=
  firstMatch
    (fun cs =>
      match dropLit "<<<\n".data cs with
      | none => none
      | some cs0 => (findPos (fun l => "\n>>>".data.isPrefixOf l) cs0).map String.mk)
    body.data

/-- Embedding of `strip_markdown_fences` from `angry_ai.py` (lines 293–307): strip the
text, drop a first and/or last line that starts with a code fence. -/
def strip_markdown_fences (text : String) : String :=
  let t := pyStrip text
  let lines := splitChar t '\n'
  let lines2 :=
    match lines with
    | [] => []
    | l0 :: rest => if startsWithS (pyStrip l0) "```" then rest else l0 :: rest
  let lines3 :=
    match lines2.getLast? with
    | some ll => if startsWithS (pyStrip ll) "```" then lines2.dropLast else lines2
    | none => lines2
  joinStr "\n" lines3

/-- Preview `body[:300]` with newlines visualised as backslash-n, as embedded embedded in malformed
payload errors. -/
def previewOf (body : String) : String :=
  pyReplace (String.mk (body.data.take 300)) "\n" "\\n"

/-- The `EDIT_FILE` missing-OLD-block error (lines 366–374). -/
def oldBlockErrMsg (body : String) : String :=
  "EDIT_FILE: Could not find OLD:\\n<<<\\n...\\n>>> block.\nExpected format:\n  OLD:\n  <<<\n  old text here\n  >>>\nBody preview: " ++ previewOf body ++ "..."

/-- The `EDIT_FILE` missing-NEW-block error (lines 382–390). -/
def newBlockErrMsg (body : String) : String :=
  "EDIT_FILE: Could not find NEW:\\n<<<\\n...\\n>>> block.\nExpected format:\n  NEW:\n  <<<\n  new text here\n  >>>\nBody preview: " ++ previewOf body ++ "..."

/-- The `WRITE_FILE` missing-CONTENT-block error (lines 408–416). -/
def contentBlockErrMsg (body : String) : String :=
  "WRITE_FILE: Could not find CONTENT:\\n<<<\\n...\\n>>> block.\nExpected format:\n  CONTENT:\n  <<<\n  file content here\n  >>>\nBody preview: " ++ previewOf body ++ "..."

/-- The per-directive-kind part of `parse_action` (lines 343–468), applied
to the selected (last) `ACTION_RE` match: (group 1, group 2, text after
the match end).  A raised `ValueError` is embedded as `.error`. -/
def dispatchLast (m : String × String × String) : Except String ParsedAction :=
  let action := pyStrip m.1
  let rest := pyStrip m.2.1
  let after := m.2.2
  if action = "APPLY_PATCH" then
    .ok (ParsedAction.mk "APPLY_PATCH" none (some (pyStrip after)) none none none)
  else if action = "EDIT_FILE" then
    let path := pyStrip rest
    match validate_relative_path path with
    | .error e => .error e
    | .ok _ =>
      let body := pyStrip after
      match strictBlock "OLD" body with
      | none => .error (oldBlockErrMsg body)
      | some old0 =>
        match strictBlock "NEW" body with
        | none => .error (newBlockErrMsg body)
        | some new0 =>
          .ok (ParsedAction.mk "EDIT_FILE" (some path) none
            (some (strip_markdown_fences old0)) (some (strip_markdown_fences new0)) none)
  else if action = "WRITE_FILE" then
    let path := pyStrip rest
    match validate_relative_path path with
    | .error e => .error e
    | .ok _ =>
      let body := pyStrip after
      match strictBlock "CONTENT" body with
      | none => .error (contentBlockErrMsg body)
      | some c0 =>
        .ok (ParsedAction.mk "WRITE_FILE" (some path) none none none
          (some (strip_markdown_fences c0)))
  else if action = "RUN_COMMAND" then
    match simpleBlock (pyStrip after) with
    | none => .error "RUN_COMMAND: Could not find <<<\n...\n>>> block"
    | some cmd => .ok (ParsedAction.mk "RUN_COMMAND" none none none none (some cmd))
  else if action = "EDIT_MULTIPLE" then
    match simpleBlock (pyStrip after) with
    | none => .error "EDIT_MULTIPLE: Could not find <<<\n...\n>>> block"
    | some j => .ok (ParsedAction.mk "EDIT_MULTIPLE" none none none none (some j))
  else if action = "GIT_COMMIT" then
    match simpleBlock (pyStrip after) with
    | none => .error "GIT_COMMIT: Could not find <<<\n...\n>>> block"
    | some msg => .ok (ParsedAction.mk "GIT_COMMIT" none none none none (some msg))
  else
    let argument := pyStrip rest
    match
      (if (action = "READ_FILE" || action = "LIST_DIR") && argument ≠ "" then
        validate_relative_path argument
      else .ok ()) with
    | .error e => .error e
    | .ok _ => .ok (ParsedAction.mk action (some argument) none none none none)

/-- Embedding of `parse_action` from `angry_ai.py` (lines 310–468): all `ACTION_RE`
matches are located and the LAST one is dispatched; no match is the
`No ACTION: line found` error. -/
def parse_action (llm_output : String) : Except String ParsedAction :=
  match actionMatches llm_output with
  | [] => .error "No ACTION: line found in model output."
  | m :: ms => dispatchLast (lastOf m ms)

/-! ## The standalone fallback helper `parse_edit_file_with_fallback`
(`test_edit_file_fallback.py`, lines 8–46) -/

/-- Match `LABEL:\s*<<<(.*?)>>>` (DOTALL) at one position. -/
def matchLooseAt (label : List Char) (cs : List Char) : Option String :=
  match dropLit label cs with
  | none => none
  | some cs0 =>
    match dropLit "<<<".data (cs0.dropWhile isPySpace) with
    | none => none
    | some cs1 => (findPos (fun l => ">>>".data.isPrefixOf l) cs1).map String.mk

/-- Embedding of `re.search(LABEL:\s*<<<(.*?)>>>, body, DOTALL)`, group 1. -/
def searchLooseBlock (label : String) (body : String) : Option String :=
  firstMatch (matchLooseAt (label ++ ":").data) body.data

/-- Closing condition of `(?:<<<\s*)?NEW:`: either `<<<`, a whitespace
run, then `NEW:`, or `NEW:` directly. -/
def oldFbCloseHere (l : List Char) : Bool :=
  (match dropLit "<<<".data l with
   | some l0 => "NEW:".data.isPrefixOf (l0.dropWhile isPySpace)
   | none => false) || "NEW:".data.isPrefixOf l

/-- Embedding of `re.search(OLD:\s*<<<(.*?)(?:<<<\s*)?NEW:, body, DOTALL)`, group 1 —
the OLD-block fallback of `parse_edit_file_with_fallback`. -/
def searchOldFallback (body : String) : Option String :=
  firstMatch
    (fun cs =>
      match dropLit "OLD:".data cs with
      | none => none
      | some cs0 =>
        match dropLit "<<<".data (cs0.dropWhile isPySpace) with
        | none => none
        | some cs1 => (findPos oldFbCloseHere cs1).map String.mk)
    body.data

/-- Closing condition of `(?:<<<\s*)?$` (no MULTILINE, so `$` matches at
the end of the string or just before a final newline): either `<<<`
followed by whitespace running to the end, or the end itself. -/
def newFbCloseHere (l : List Char) : Bool :=
  (match dropLit "<<<".data l with
   | some l0 => l0.all isPySpace
   | none => false) || l = [] || l = ['\n']

/-- Embedding of `re.search(NEW:\s*<<<(.*?)(?:<<<\s*)?$, body, DOTALL)`, group 1 —
the NEW-block fallback of `parse_edit_file_with_fallback`. -/
def searchNewFallback (body : String) : Option String :=
  firstMatch
    (fun cs =>
      match dropLit "NEW:".data cs with
      | none => none
      | some cs0 =>
        match dropLit "<<<".data (cs0.dropWhile isPySpace) with
        | none => none
        | some cs1 => (findPos newFbCloseHere cs1).map String.mk)
    body.data

/-- Warning recorded by the OLD-block fallback. -/
def oldFbWarning : String :=
  "OLD block: Model used <<< as closing delimiter instead of >>>"

/-- Warning recorded by the NEW-block fallback. -/
def newFbWarning : String :=
  "NEW block: Model used <<< as closing delimiter instead of >>>"

/-- Embedding of `parse_edit_file_with_fallback` from `test_edit_file_fallback.py`
(lines 8–46): strict pattern first, lenient fallback second, one warning
appended per block parsed by the fallback; raised `ValueError`s are
embedded as `.error`. -/
def parse_edit_file_with_fallback (body : String) :
    Except String (String × String × List String) :=
  let oldAttempt : Option String × List String :=
    match searchLooseBlock "OLD" body with
    | some v => (some v, [])
    | none =>
      if hasSub body "NEW:" then
        match searchOldFallback body with
        | some v => (some v, [oldFbWarning])
        | none => (none, [])
      else (none, [])
  match oldAttempt.1 with
  | none => .error "Could not find OLD block"
  | some oldv =>
    let newAttempt : Option String × List String :=
      match searchLooseBlock "NEW" body with
      | some v => (some v, [])
      | none =>
        match searchNewFallback body with
        | some v => (some v, [newFbWarning])
        | none => (none, [])
    match newAttempt.1 with
    | none => .error "Could not find NEW block"
    | some newv => .ok (pyStrip oldv, pyStrip newv, oldAttempt.2 ++ newAttempt.2)

/-! ## ToolLayer -/

/-- Result of `tool_edit_file`: `.ok` carries the new on-disk content and
the success message; `.err` performs no write. -/
inductive EditOutcome where
  | ok (newContent msg : String)
  | err (msg : String)
deriving DecidableEq, Repr

/-- The `EDIT_FILE_ERROR` message when the OLD text is absent
(lines 576–581): echoes the literal old text, names no count. -/
def editNotFoundMsg (path old_str : String) : String :=
  "EDIT_FILE_ERROR: Could not find the OLD text in " ++ path ++
  "\n\nMake sure you copied the exact text from the file.\nThe OLD text must match exactly, including all whitespace.\n\nYou provided:\n<<<\n" ++
  old_str ++ "\n>>>\n"

/-- The `EDIT_FILE_ERROR` message when the OLD text occurs more than once
(lines 586–591): names the occurrence count. -/
def editCountMsg (path old_str : String) (count : Nat) : String :=
  "EDIT_FILE_ERROR: The OLD text appears " ++ toString count ++ " times in " ++ path ++
  "\n\nThe OLD text must be unique in the file.\nPlease include more surrounding context to make it unique.\n\nYou provided:\n<<<\n" ++
  old_str ++ "\n>>>\n"

/-- The `EDIT_FILE_OK` success message (line 597). -/
def editOkMsg (path : String) : String :=
  "EDIT_FILE_OK: Successfully edited " ++ path ++ "\n"

/-- Embedding of `tool_edit_file` from `angry_ai.py` (lines 559–599).  The filesystem
facts `path.exists()` / `path.is_file()` and the file content read at line
572 are passed in explicitly. -/
def tool_edit_file (path : String) (fileExists isFile : Bool)
    (content old_str new_str : String) : EditOutcome :=
  if !fileExists then
    .err ("EDIT_FILE_ERROR: File does not exist: " ++ path ++ "\n")
  else if !isFile then
    .err ("EDIT_FILE_ERROR: Path is not a file: " ++ path ++ "\n")
  else if !hasSub content old_str then
    .err (editNotFoundMsg path old_str)
  else
    let count := countOcc content old_str
    if count > 1 then .err (editCountMsg path old_str count)
    else .ok (pyReplace content old_str new_str) (editOkMsg path)

/-- Content of the target file after a `tool_edit_file` call: only the
`.ok` branch writes. -/
def finalContent (r : EditOutcome) (orig : String) : String :=
  match r with
  | .ok c _ => c
  | .err _ => orig

/-- Result of `tool_run_command`: `.refused` returns without spawning a
subprocess; `.run` executes the command (under the stated timeout in
seconds) and yields the formatted result. -/
inductive RunOutcome where
  | refused (msg : String)
  | run (command : String) (timeoutSecs : Nat) (result : String)
deriving DecidableEq, Repr

/-- The suffix appended when command output is truncated (line 723). -/
def runTruncMarker : String :=
  "\n... (output truncated, showing first 5000 chars)"

/-- The output cap of `tool_run_command` (lines 721–723). -/
def capOutput (o : String) : String :=
  if o.length > 5000 then String.mk (o.data.take 5000) ++ runTruncMarker else o

/-- The `RUN_COMMAND_RESULT` message (line 725). -/
def runResultMsg (exitCode : Int) (output : String) : String :=
  "RUN_COMMAND_RESULT (exit code: " ++ toString exitCode ++ "):\n```\n" ++ output ++ "\n```\n"

/-- The whitelist-refusal message (lines 704–707). -/
def runNotAllowedMsg (cmd_name : String) (allowed : List String) : String :=
  "RUN_COMMAND_ERROR: Command \x27" ++ cmd_name ++ "\x27 not in whitelist.\nAllowed commands: " ++
  joinStr ", " allowed ++ "\n"

/-- Embedding of `tool_run_command` from `angry_ai.py` (lines 689–729).  `exitCode` and
`output` are the oracle for the subprocess run, consulted only on the
`.run` branch. -/
def tool_run_command (command : String) (allowed_commands : List String)
    (exitCode : Int) (output : String) : RunOutcome :=
  match pySplitWs command with
  | [] => .refused "RUN_COMMAND_ERROR: Empty command\n"
  | cmd_name :: _ =>
    if !allowed_commands.contains cmd_name &&
       !allowed_commands.any (fun p => startsWithS cmd_name p) then
      .refused (runNotAllowedMsg cmd_name allowed_commands)
    else
      .run command 60 (runResultMsg exitCode (capOutput output))

/-- Embedding of `_strip_markdown_fences` from `angry_ai.py` (lines 1117–1130): with at
least two fence lines, keep only what is between the first and the last. -/
def patch_strip_fences (patch_text : String) : String :=
  let lines := pySplitLines patch_text
  let idxs := (List.range lines.length).filter
    (fun i => startsWithS (pyStrip (lines.getD i "")) "```")
  match idxs with
  | i1 :: i2 :: restIdx =>
    let lastIdx := lastOf i2 restIdx
    pyStrip (joinStr "\n" ((lines.drop (i1 + 1)).take (lastIdx - (i1 + 1)))) ++ "\n"
  | _ => patch_text

/-- Control flow of `tool_apply_patch` before any subprocess: `.incomplete`
is the `APPLY_PATCH_ERROR: Incomplete patch detected` template return
(lines 1155–1182); `.runPatch` proceeds to invoke `patch(1)`
(lines 1184 onward). -/
inductive PatchStage where
  | emptyInput
  | emptyCleaned
  | incomplete (cleaned : String)
  | runPatch (cleaned : String)
deriving DecidableEq, Repr

/-- The input validation of `tool_apply_patch` (lines 1133–1183),
translated clause by clause: note `has_changes` scans `lines[1:]` for
lines starting with `+` or `-`. -/
def tool_apply_patch_gate (patch_text : String) : PatchStage :=
  if pyStrip patch_text = "" then .emptyInput
  else
    let cleaned := patch_strip_fences patch_text
    let lines := pySplitLines (pyStrip cleaned)
    if lines = [] then .emptyCleaned
    else
      let has_hunks := lines.any (fun l => startsWithS l "@@ ")
      let has_changes := (lines.drop 1).any (fun l => startsWithS l "+" || startsWithS l "-")
      if !has_hunks || !has_changes then .incomplete cleaned
      else .runPatch cleaned

/-! ## ContextManager -/

/-- Python `l[-k:]`: for `k = 0` the slice `[-0:]` is the whole list. -/
def pyTailSlice {α : Type} (l : List α) (k : Nat) : List α :=
  if k = 0 then l else l.drop (l.length - k)

/-- The synthetic notice turn inserted by `prune_history`
(lines 1468–1474). -/
def pruneSummary (pruned_count max_turns : Nat) : String × String :=
  ("user",
   "[CONTEXT MANAGEMENT: Pruned " ++ toString pruned_count ++
   " older messages to prevent context overflow. Keeping last " ++ toString max_turns ++
   " conversation turns. System prompt and bootstrap remain intact.]")

/-- Embedding of `prune_history` from `angry_ai.py` (lines 1438–1478).  A transcript
turn is a (role, content) pair. -/
def prune_history (history : List (String × String)) (max_turns : Nat) :
    List (String × String) :=
  if history.length ≤ 2 then history
  else
    let essential := history.take 2
    let conversation := history.drop 2
    let max_messages := max_turns * 2
    if conversation.length > max_messages then
      let pruned_count := conversation.length - max_messages
      essential ++ [pruneSummary pruned_count max_turns] ++ pyTailSlice conversation max_messages
    else history

/-! ## ValidationCycle -/

/-- Embedding of `run_validation_command` from `angry_ai.py` (lines 1406–1435):
an empty/blank command disables validation; otherwise the subprocess runs
and success is `returncode == 0` with combined stdout/stderr output. -/
def run_validation_command (cmd : String) (returncode : Int)
    (stdout stderr : String) : Bool × String :=
  if pyStrip cmd = "" then (true, "Validation disabled (no command configured)")
  else (returncode = 0, "STDOUT:\n" ++ stdout ++ "\n\nSTDERR:\n" ++ stderr)

/-- How the validation block of `agent_loop` exits (lines 2009–2074):
`commitTimeout` and `validationTimeout` are the timeout breaks,
`succeeded` the success break, `awaitingRepair` the
`break # Exit validation loop, let model respond` after a failure with
retries left, `exhausted` the `Max validation retries reached` fall-through
(after which the `for` range ends). -/
inductive CycleOutcome where
  | commitTimeout
  | validationTimeout
  | succeeded
  | awaitingRepair
  | exhausted
deriving DecidableEq, Repr

/-- The `"timed out" in output.lower()` test of the validation block. -/
def timedOutIn (s : String) : Bool :=
  hasSub (pyLower s) "timed out"

/-- One traversal of `for retry in range(3)` in the validation block of
`agent_loop` (lines 2014–2070), translated break by break over the list of
remaining retry indices.  `commit` and `validate` are the oracles for
`commit_and_push_changes` and `run_validation_command` at each attempt;
the returned `Nat` counts how often the validation command was actually
run.  Exhausting the index list is the normal end of `range(3)`, reached
only through the final fall-through, i.e. the exhausted outcome. -/
def validation_cycle_go (commit validate : Nat → Bool × String) :
    List Nat → Nat → Nat × CycleOutcome
  | [], runsSoFar => (runsSoFar, .exhausted)
  | retry :: restRetries, runsSoFar =>
    let cr := commit retry
    if !cr.1 && timedOutIn cr.2 then (runsSoFar, .commitTimeout)
    else
      let vr := validate retry
      let runs := runsSoFar + 1
      if timedOutIn vr.2 then (runs, .validationTimeout)
      else if vr.1 then (runs, .succeeded)
      else if retry + 1 < 3 then (runs, .awaitingRepair)
      else validation_cycle_go commit validate restRetries runs

/-- The whole validation block, `for retry in range(3)`. -/
def validation_cycle (commit validate : Nat → Bool × String) : Nat × CycleOutcome :=
  validation_cycle_go commit validate [0, 1, 2] 0

/-! ## Helper predicates and lemmas -/

/-- Whether an `Except` is an error. -/
def exceptIsError {ε α : Type} : Except ε α → Bool
  | .error _ => true
  | .ok _ => false

/-- Whether a `tool_edit_file` outcome performed the replacement. -/
def editOk : EditOutcome → Bool
  | .ok _ _ => true
  | .err _ => false

theorem hasSubAux_nil_pat : ∀ h : List Char, hasSubAux [] h = true := by
  intro h
  cases h <;> simp [hasSubAux, List.isPrefixOf]

theorem hasSubAux_iff_countAux_pos (pc : Char) (pr : List Char) :
    ∀ (fuel : Nat) (h : List Char), h.length ≤ fuel →
      (hasSubAux (pc :: pr) h = true ↔ 0 < countAux pc pr fuel h) := by
  intro fuel
  induction fuel with
  | zero =>
    intro h hle
    have hnil : h = [] := by
      cases h with
      | nil => rfl
      | cons c cs => simp at hle
    subst hnil
    simp [hasSubAux, countAux, List.isPrefixOf]
  | succ fuel ih =>
    intro h hle
    cases h with
    | nil => simp [hasSubAux, countAux, List.isPrefixOf]
    | cons c cs =>
      by_cases hp : (pc :: pr).isPrefixOf (c :: cs) = true
      · simp [hasSubAux, countAux, hp]
      · have hp' : (pc :: pr).isPrefixOf (c :: cs) = false := by
          cases hb : (pc :: pr).isPrefixOf (c :: cs)
          · rfl
          · exact absurd hb hp
        have hcs : cs.length ≤ fuel := by
          simp only [List.length_cons] at hle
          omega
        simp only [hasSubAux, countAux, hp', Bool.false_or, Bool.false_eq_true,
          if_false]
        exact ih cs hcs

theorem hasSub_iff_countOcc_pos (h p : String) :
    hasSub h p = true ↔ 0 < countOcc h p := by
  show hasSubAux p.data h.data = true ↔ 0 < countOcc h p
  unfold countOcc
  cases hp : p.data with
  | nil => simp [hasSubAux_nil_pat]
  | cons pc pr => exact hasSubAux_iff_countAux_pos pc pr h.data.length h.data (le_refl _)

theorem hasSubAux_append_left (p x y : List Char) (h : hasSubAux p y = true) :
    hasSubAux p (x ++ y) = true := by
  induction x with
  | nil => simpa using h
  | cons c cs ih =>
    simp only [List.cons_append, hasSubAux, Bool.or_eq_true]
    exact Or.inr ih

theorem hasSubAux_append_right (p y : List Char) (h : hasSubAux p y = true) :
    ∀ x : List Char, hasSubAux p (y ++ x) = true := by
  induction y with
  | nil =>
    intro x
    have hp : p = [] := by
      cases p with
      | nil => rfl
      | cons a as => simp [hasSubAux, List.isPrefixOf] at h
    subst hp
    exact hasSubAux_nil_pat x
  | cons c cs ih =>
    intro x
    simp only [hasSubAux, Bool.or_eq_true] at h
    rcases h with h | h
    · simp only [List.cons_append, hasSubAux, Bool.or_eq_true]
      left
      rw [List.isPrefixOf_iff_prefix] at h ⊢
      exact h.trans (List.prefix_append _ _)
    · simp only [List.cons_append, hasSubAux, Bool.or_eq_true]
      exact Or.inr (ih h x)

theorem hasSubAux_self (p z : List Char) : hasSubAux p (p ++ z) = true := by
  cases p with
  | nil => exact hasSubAux_nil_pat z
  | cons a as =>
    simp only [List.cons_append, hasSubAux, Bool.or_eq_true]
    left
    rw [List.isPrefixOf_iff_prefix]
    exact List.prefix_append _ _

theorem hasSub_left_mid (a p b : String) : hasSub (a ++ p ++ b) p = true := by
  show hasSubAux p.data (a ++ p ++ b).data = true
  rw [String.data_append, String.data_append, List.append_assoc]
  exact hasSubAux_append_left _ _ _ (hasSubAux_self _ _)

theorem hasSub_grow_right (y x p : String) (h : hasSub y p = true) :
    hasSub (y ++ x) p = true := by
  show hasSubAux p.data (y ++ x).data = true
  rw [String.data_append]
  exact hasSubAux_append_right _ _ h _

theorem hasSub_pre (a p : String) : hasSub (a ++ p) p = true := by
  show hasSubAux p.data (a ++ p).data = true
  rw [String.data_append]
  refine hasSubAux_append_left _ _ _ ?_
  have h := hasSubAux_self p.data []
  rwa [List.append_nil] at h

theorem lastOf_append {α : Type} :
    ∀ (pre : List α) (m m0 : α) (ms0 : List α),
      pre ++ [m] = m0 :: ms0 → lastOf m0 ms0 = m := by
  intro pre
  induction pre with
  | nil =>
    intro m m0 ms0 h
    simp only [List.nil_append, List.cons.injEq] at h
    obtain ⟨h1, h2⟩ := h
    subst h1; subst h2
    rfl
  | cons p pre ih =>
    intro m m0 ms0 h
    simp only [List.cons_append, List.cons.injEq] at h
    obtain ⟨h1, h2⟩ := h
    subst h1
    cases hms : pre ++ [m] with
    | nil => exact absurd hms (by simp)
    | cons x xs =>
      rw [← h2, hms]
      show lastOf x xs = m
      exact ih m x xs hms

theorem parse_action_selects_last (s : String)
    (pre : List (String × String × String)) (m : String × String × String)
    (h : actionMatches s = pre ++ [m]) : parse_action s = dispatchLast m := by
  unfold parse_action
  cases he : actionMatches s with
  | nil =>
    rw [he] at h
    exact absurd h.symm (by simp)
  | cons m0 ms0 =>
    have hm : lastOf m0 ms0 = m := lastOf_append pre m m0 ms0 (by rw [← h, he])
    show dispatchLast (lastOf m0 ms0) = dispatchLast m
    rw [hm]

/-! ## Claims -/

/-- C1 counterexample: when the old text occurs zero times, the edit fails
and the file is unchanged, but the error message does not name the
occurrence count — it contains no numeral `0` at all (it echoes the old
text instead).  The claim that the failure message names the occurrence
count for the 0-occurrence case is therefore false on the code. -/
theorem edit_file_zero_count_message_lacks_count :
    tool_edit_file "f.c" true true "abc" "xyz" "q" =
      .err (editNotFoundMsg "f.c" "xyz") ∧
    hasSub (editNotFoundMsg "f.c" "xyz") "0" = false ∧
    finalContent (tool_edit_file "f.c" true true "abc" "xyz" "q") "abc" = "abc" := by
  refine ⟨by decide, by decide, by decide⟩

/-- C1 — amended claim: for an existing regular file, the exact-replace
edit succeeds if and only if the old text occurs in the content exactly
once; with 0 or ≥ 2 occurrences no replacement is performed and the file
is unchanged; for ≥ 2 occurrences the error message names the occurrence
count; for 0 occurrences it fails with a message that echoes the old text
(and, per the counterexample, names no count). -/
theorem tool_edit_file_unique_replacement (path c old new : String) :
    (editOk (tool_edit_file path true true c old new) = true ↔ countOcc c old = 1) ∧
    (countOcc c old = 0 →
      tool_edit_file path true true c old new = .err (editNotFoundMsg path old) ∧
      hasSub (editNotFoundMsg path old) old = true) ∧
    (2 ≤ countOcc c old →
      tool_edit_file path true true c old new =
        .err (editCountMsg path old (countOcc c old)) ∧
      hasSub (editCountMsg path old (countOcc c old))
        (toString (countOcc c old)) = true) ∧
    (countOcc c old = 1 →
      tool_edit_file path true true c old new =
        .ok (pyReplace c old new) (editOkMsg path)) ∧
    (countOcc c old ≠ 1 →
      finalContent (tool_edit_file path true true c old new) c = c) := by
  have hkey := hasSub_iff_countOcc_pos c old
  by_cases hs : hasSub c old = true
  · have hpos : 0 < countOcc c old := hkey.mp hs
    by_cases hgt : 1 < countOcc c old
    · have he : tool_edit_file path true true c old new =
          .err (editCountMsg path old (countOcc c old)) := by
        simp [tool_edit_file, hs, hgt]
      refine ⟨?_, ?_, ?_, ?_, ?_⟩
      · rw [he]
        simp [editOk]
        omega
      · intro h0; omega
      · intro _
        refine ⟨he, ?_⟩
        simp only [editCountMsg]
        exact hasSub_grow_right _ _ _ (hasSub_grow_right _ _ _
          (hasSub_grow_right _ _ _ (hasSub_grow_right _ _ _
            (hasSub_grow_right _ _ _ (hasSub_pre _ _)))))
      · intro h1; omega
      · intro _
        rw [he]
        rfl
    · have h1 : countOcc c old = 1 := by omega
      have he : tool_edit_file path true true c old new =
          .ok (pyReplace c old new) (editOkMsg path) := by
        simp [tool_edit_file, hs, hgt]
      refine ⟨?_, ?_, ?_, ?_, ?_⟩
      · rw [he]; simp [editOk, h1]
      · intro h0; omega
      · intro h2; omega
      · intro _; exact he
      · intro hne; exact absurd h1 hne
  · have hz : countOcc c old = 0 := by
      by_contra hnz
      exact hs (hkey.mpr (Nat.pos_of_ne_zero hnz))
    have hs' : hasSub c old = false := by
      cases hb : hasSub c old
      · rfl
      · exact absurd hb hs
    have he : tool_edit_file path true true c old new =
        .err (editNotFoundMsg path old) := by
      simp [tool_edit_file, hs']
    refine ⟨?_, ?_, ?_, ?_, ?_⟩
    · rw [he]
      simp [editOk]
      omega
    · intro _
      refine ⟨he, ?_⟩
      simp only [editNotFoundMsg]
      exact hasSub_grow_right _ _ _ (hasSub_pre _ _)
    · intro h2; omega
    · intro h1; omega
    · intro _
      rw [he]
      rfl

/-- C1 witness (Scenario A of the specification): the text `foo` appears
twice in `foo bar foo`, so the edit fails with a message reporting the
count 2. -/
theorem tool_edit_file_unique_replacement_witness :
    tool_edit_file "f.c" true true "foo bar foo" "foo" "qux" =
      .err (editCountMsg "f.c" "foo" 2) ∧
    hasSub (editCountMsg "f.c" "foo" 2) (toString 2) = true :=
  ((tool_edit_file_unique_replacement "f.c" "foo bar foo" "foo" "qux").2.2.1
    (by decide))

/-- C10 — for any existing file with non-empty content, an exact-replace
with an empty old text always fails with the multiple-occurrence error
reporting `length + 1` occurrences (Python counts the empty string
`len(content) + 1` times) and leaves the file unchanged; with empty
content, the edit succeeds and writes the new text. -/
theorem tool_edit_file_empty_old (path c new : String) :
    (c ≠ "" →
      tool_edit_file path true true c "" new =
        .err (editCountMsg path "" (c.length + 1)) ∧
      finalContent (tool_edit_file path true true c "" new) c = c) ∧
    tool_edit_file path true true "" "" new = .ok new (editOkMsg path) := by
  constructor
  · intro hne
    have hdata : c.data ≠ [] := by
      intro hd
      apply hne
      cases c with
      | mk d =>
        have hd' : d = [] := hd
        subst hd'
        rfl
    have hsub : hasSub c "" = true := hasSubAux_nil_pat c.data
    have hcount : countOcc c "" = c.length + 1 := rfl
    have hlen0 : 0 < c.data.length := List.length_pos.mpr hdata
    have hgt : countOcc c "" > 1 := by
      rw [hcount]
      have hl : 0 < c.length := hlen0
      omega
    have he : tool_edit_file path true true c "" new =
        .err (editCountMsg path "" (countOcc c "")) := by
      simp [tool_edit_file, hsub, hgt]
    rw [hcount] at he
    exact ⟨he, by rw [he]; rfl⟩
  · have hrep : pyReplace "" "" new = new := by
      cases new with
      | mk d => simp [pyReplace]
    have hsub : hasSub "" "" = true := by decide
    have hng : ¬ countOcc "" "" > 1 := by decide
    simp [tool_edit_file, hsub, hng, hrep]

/-- C10 witness: content `ab` with an empty old text fails reporting 3
occurrences and leaves the file unchanged. -/
theorem tool_edit_file_empty_old_witness :
    tool_edit_file "f.c" true true "ab" "" "q" =
      .err (editCountMsg "f.c" "" 3) ∧
    finalContent (tool_edit_file "f.c" true true "ab" "" "q") "ab" = "ab" :=
  (tool_edit_file_empty_old "f.c" "ab" "q").1 (by decide)

/-- C4 — failing input evaluated on the code: a patch consisting of the two
`---`/`+++` file-header lines and one hunk header but no added or removed
change lines passes the incompleteness check of `tool_apply_patch` (the
`+++` header itself starts with `+` and `lines[1:]` skips only the first
line), so the gate proceeds to invoke the `patch` subprocess instead of
returning the incomplete-patch diagnostic. -/
theorem apply_patch_header_only_reaches_subprocess :
    tool_apply_patch_gate "--- a/f.c\n+++ b/f.c\n@@ -1,1 +1,1 @@" =
      PatchStage.runPatch "--- a/f.c\n+++ b/f.c\n@@ -1,1 +1,1 @@" := by
  decide

/-- C5 counterexample: pruning is not idempotent.  For a transcript of two
pinned turns plus five conversation messages and budget `max_turns = 1`,
the first prune drops three messages and inserts a notice saying so; the
second prune drops that notice and inserts a notice reporting one dropped
message, so the results differ. -/
theorem prune_history_not_idempotent :
    prune_history (prune_history
      [("system", "s"), ("user", "b"), ("assistant", "a1"), ("user", "u1"),
       ("assistant", "a2"), ("user", "u2"), ("assistant", "a3")] 1) 1 ≠
    prune_history
      [("system", "s"), ("user", "b"), ("assistant", "a1"), ("user", "u1"),
       ("assistant", "a2"), ("user", "u2"), ("assistant", "a3")] 1 := by
  decide

/-- C5 — amended claim: `prune_history` leaves a transcript that is already
within budget (at most two pinned turns plus `2 * max_turns` conversation
messages) unchanged; idempotence in general fails, as the counterexample
shows. -/
theorem prune_history_within_budget_noop (history : List (String × String))
    (max_turns : Nat) (h : history.length ≤ 2 + max_turns * 2) :
    prune_history history max_turns = history := by
  unfold prune_history
  by_cases h2 : history.length ≤ 2
  · simp [h2]
  · have hc : ¬ (max_turns * 2 < history.length - 2) := by omega
    simp [h2, List.length_drop, hc]

/-- C5 witness: a five-message transcript with budget 2 is within budget
and is returned unchanged. -/
theorem prune_history_within_budget_noop_witness :
    prune_history
      [("system", "s"), ("user", "b"), ("assistant", "a1"), ("user", "u1"),
       ("assistant", "a2")] 2 =
    [("system", "s"), ("user", "b"), ("assistant", "a1"), ("user", "u1"),
     ("assistant", "a2")] :=
  prune_history_within_budget_noop _ 2 (by decide)

/-- C6 counterexample: an `EDIT_FILE` payload whose OLD and NEW blocks are
opened with `<<<` and incorrectly closed with `<<<` again makes the
deployed parser `parse_action` fail with a malformed-payload error — there
is no lenient fallback in `angry_ai.py`, so parsing does not succeed. -/
theorem edit_payload_open_close_open_parse_fails :
    exceptIsError
      (parse_action "ACTION: EDIT_FILE f.c\nOLD:\n<<<\na\n<<<\nNEW:\n<<<\nb\n<<<") =
      true := by
  decide

/-- C6 — amended claim: the lenient fallback lives only in the standalone
helper `parse_edit_file_with_fallback` of `test_edit_file_fallback.py`.
There, a block closed with `<<<` instead of `>>>` is parsed by the
fallback with exactly one warning recorded for that block — provided no
`>>>` occurs later in the payload: (i) with both blocks so malformed the
helper succeeds with one warning per block; (ii) with only the NEW block
malformed it succeeds with exactly one warning; (iii) but when a `>>>`
occurs later (here closing the NEW block), the strict pattern spans the
malformed OLD block and the substitution is silently accepted with no
warning. -/
theorem edit_fallback_warning_per_block :
    parse_edit_file_with_fallback "OLD:\n<<<\nfoo\n<<<\nNEW:\n<<<\nbar\n<<<" =
      .ok ("foo", "bar", [oldFbWarning, newFbWarning]) ∧
    parse_edit_file_with_fallback
        "OLD:\n<<<\nsome content\n>>>\nNEW:\n<<<\nnew content\n<<<" =
      .ok ("some content", "new content", [newFbWarning]) ∧
    parse_edit_file_with_fallback "OLD:\n<<<\na\n<<<\nNEW:\n<<<\nb\n>>>" =
      .ok ("a\n<<<\nNEW:\n<<<\nb", "b", []) := by
  refine ⟨rfl, rfl, rfl⟩

/-- C7 counterexample: with commits succeeding and the validation command
failing (without timeout) on every attempt, the validation block runs the
command exactly once and exits by the `let model respond` break — it does
not reach the exhausted outcome, whose fall-through is unreachable. -/
theorem validation_cycle_failure_not_exhausted :
    validation_cycle (fun _ => (true, "ok"))
        (fun _ => (false, "build failed: exit 1")) =
      (1, CycleOutcome.awaitingRepair) ∧
    CycleOutcome.awaitingRepair ≠ CycleOutcome.exhausted := by
  refine ⟨by decide, by decide⟩

/-- C7 — amended claim: whenever the first commit succeeds and the first
validation run fails without a timeout, the validation block runs the
validation command exactly once, appends the failure feedback and breaks
out to let the model respond (`awaitingRepair`); the retry ceiling and the
exhausted outcome are never reached within one cycle, and the outer loop
continues (the block returns normally in all cases). -/
theorem validation_cycle_single_run_on_failure
    (commit validate : Nat → Bool × String)
    (hc : (commit 0).1 = true)
    (hv : (validate 0).1 = false)
    (ht : timedOutIn (validate 0).2 = false) :
    validation_cycle commit validate = (1, CycleOutcome.awaitingRepair) := by
  simp [validation_cycle, validation_cycle_go, hc, hv, ht]

/-- C7 witness: concrete oracles with a failing validation command. -/
theorem validation_cycle_single_run_on_failure_witness :
    validation_cycle (fun _ => (true, "pushed"))
        (fun _ => (false, "STDOUT:\n\n\nSTDERR:\ncc: error")) =
      (1, CycleOutcome.awaitingRepair) :=
  validation_cycle_single_run_on_failure _ _ rfl rfl (by decide)

/-- C2 counterexample: the input `a/../b` contains the substring `/../`,
yet `validate_relative_path` accepts it (its normalized form `b` neither
starts with `..` nor contains `/..`) and `resolve_repo_path` returns the
resolved path `/repo/b` inside the root instead of failing. -/
theorem validate_path_traversal_passes :
    hasSub "a/../b" "/../" = true ∧
    validate_relative_path "a/../b" = .ok () ∧
    resolve_repo_path "/repo" "a/../b" = .ok "/repo/b" := by
  refine ⟨by decide, rfl, rfl⟩

/-- C2 — amended claim: `validate_relative_path` (and hence the
validate-then-resolve pipeline) fails for every input that starts with `/`
or `~`, and for every input whose normalized form starts with `..` or
contains `/..`; an input containing `/../` whose traversal normalizes away
(such as `a/../b`) is accepted, per the counterexample. -/
theorem validate_relative_path_rejects (p : String)
    (h : startsWithS p "/" = true ∨ startsWithS p "~" = true ∨
         startsWithS (posixNormpath p) ".." = true ∨
         hasSub (posixNormpath p) "/.." = true) :
    exceptIsError (validate_relative_path p) = true := by
  cases hv : validate_relative_path p with
  | error e => rfl
  | ok u =>
    exfalso
    unfold validate_relative_path at hv
    by_cases h1 : p = ""
    · rw [if_pos h1] at hv
      exact absurd hv (by simp)
    rw [if_neg h1] at hv
    by_cases h2 : startsWithS p "/" = true
    · rw [if_pos h2] at hv
      exact absurd hv (by simp)
    rw [if_neg h2] at hv
    by_cases h3 : hasSub p (String.mk [nullChar]) = true
    · rw [if_pos h3] at hv
      exact absurd hv (by simp)
    rw [if_neg h3] at hv
    have hv' : (if (startsWithS (posixNormpath p) ".." ||
          hasSub (posixNormpath p) "/..") = true then
        (Except.error ("Path attempts to escape repo root: " ++ p) : Except String Unit)
      else if startsWithS p "~" = true then
        Except.error ("Path cannot use home directory expansion: " ++ p)
      else Except.ok ()) = Except.ok u := hv
    by_cases h4 : (startsWithS (posixNormpath p) ".." ||
        hasSub (posixNormpath p) "/..") = true
    · rw [if_pos h4] at hv'
      exact absurd hv' (by simp)
    rw [if_neg h4] at hv'
    by_cases h5 : startsWithS p "~" = true
    · rw [if_pos h5] at hv'
      exact absurd hv' (by simp)
    rcases h with hh | hh | hh | hh
    · exact h2 hh
    · exact h5 hh
    · exact h4 (by simp [hh])
    · exact h4 (by simp [hh])

/-- C2 witness: the escaping input `../x` normalizes to `../x`, which
starts with `..`, and validation fails on it. -/
theorem validate_relative_path_rejects_witness :
    exceptIsError (validate_relative_path "../x") = true :=
  validate_relative_path_rejects "../x" (Or.inr (Or.inr (Or.inl (by decide))))

/-- C3 — the parser fails with `No ACTION: line found` exactly when the
reply has no marker-line match; with matches present it dispatches the
LAST match, whatever earlier matches exist; and on specification
Scenario B (a `READ_FILE` marker followed by a `HALT` marker) the parsed
directive is `HALT`. -/
theorem parse_action_last_marker :
    (∀ s : String, actionMatches s = [] →
      parse_action s = .error "No ACTION: line found in model output.") ∧
    (∀ (s : String) (pre : List (String × String × String))
        (m : String × String × String),
      actionMatches s = pre ++ [m] → parse_action s = dispatchLast m) ∧
    parse_action "ACTION: READ_FILE a.txt\nsome analysis\nACTION: HALT" =
      .ok (ParsedAction.mk "HALT" (some "") none none none none) := by
  refine ⟨?_, ?_, rfl⟩
  · intro s h
    unfold parse_action
    rw [h]
  · intro s pre m h
    exact parse_action_selects_last s pre m h

/-- C3 witness: a reply with no marker fails, and a two-marker reply is
dispatched from its last match only. -/
theorem parse_action_last_marker_witness :
    parse_action "analysis only, nothing else" =
      .error "No ACTION: line found in model output." ∧
    parse_action "ACTION: GIT_STATUS\nACTION: HALT" =
      dispatchLast ("HALT", "", "") :=
  ⟨parse_action_last_marker.1 "analysis only, nothing else" rfl,
   parse_action_last_marker.2.1 "ACTION: GIT_STATUS\nACTION: HALT"
     [("GIT_STATUS", "", "\nACTION: HALT")] ("HALT", "", "") rfl⟩

/-- C8 counterexample: parsing a `READ_FILE` directive whose path argument
violates the sandbox rules does not succeed — `parse_action` itself calls
`validate_relative_path` and the violation surfaces as a parse-time
error, not at dispatch. -/
theorem read_file_bad_path_parse_fails :
    parse_action "ACTION: READ_FILE /etc/passwd" =
      .error "Path must be relative, not absolute: /etc/passwd" := rfl

/-- C8 — amended claim: for path-bearing kinds the raw-string sandbox
rules are checked during parsing, so a violating path makes `parse_action`
fail with the validation error (handled by the parse-error arm of the loop);
only the containment check of `resolve_repo_path` happens at dispatch,
where a failure becomes an `error` ToolResult rather than a crash. -/
theorem path_validation_at_parse_not_dispatch :
    (∀ (s : String) (pre : List (String × String × String)) (r a e : String),
      actionMatches s = pre ++ [("READ_FILE", r, a)] →
      pyStrip (pyStrip r) ≠ "" →
      validate_relative_path (pyStrip (pyStrip r)) = .error e →
      parse_action s = .error e) ∧
    (∀ arg root e : String,
      resolve_repo_path root arg = .error e →
      read_file_dispatch arg root = .toolError ("READ_FILE_ERROR: " ++ e ++ "\n")) := by
  constructor
  · intro s pre r a e hm hne hv
    rw [parse_action_selects_last s pre _ hm]
    simp +decide [dispatchLast, hne, hv]
  · intro arg root e h
    unfold read_file_dispatch
    rw [h]

/-- C8 witness: a home-expansion path fails at parse time with the
validation error, and an escaping path fails at dispatch as a ToolResult. -/
theorem path_validation_at_parse_not_dispatch_witness :
    parse_action "ACTION: READ_FILE ~/secrets" =
      .error "Path cannot use home directory expansion: ~/secrets" ∧
    read_file_dispatch "../x" "/repo" =
      .toolError "READ_FILE_ERROR: Path \x27../x\x27 resolves outside repo root: /x\n" :=
  ⟨path_validation_at_parse_not_dispatch.1 "ACTION: READ_FILE ~/secrets"
      [] " ~/secrets" "" "Path cannot use home directory expansion: ~/secrets"
      rfl (by decide) rfl,
   path_validation_at_parse_not_dispatch.2 "../x" "/repo"
      "Path \x27../x\x27 resolves outside repo root: /x" rfl⟩

/-- C9 — the external command tool runs the command only when its leading
whitespace-separated token matches a whitelist entry exactly or by prefix;
otherwise it returns an error naming the allowed commands without
spawning a subprocess; accepted commands run under the fixed 60-second
timeout and their output is capped at 5000 characters plus a fixed
truncation marker. -/
theorem tool_run_command_whitelist (command : String) (allowed : List String)
    (e : Int) (o : String) :
    (pySplitWs command = [] →
      tool_run_command command allowed e o =
        .refused "RUN_COMMAND_ERROR: Empty command\n") ∧
    (∀ (name : String) (restw : List String),
      pySplitWs command = name :: restw →
      ((allowed.contains name || allowed.any (fun p => startsWithS name p)) = false →
        tool_run_command command allowed e o = .refused (runNotAllowedMsg name allowed) ∧
        hasSub (runNotAllowedMsg name allowed) (joinStr ", " allowed) = true) ∧
      ((allowed.contains name || allowed.any (fun p => startsWithS name p)) = true →
        tool_run_command command allowed e o =
          .run command 60 (runResultMsg e (capOutput o)))) ∧
    (capOutput o).length ≤ 5000 + runTruncMarker.length := by
  refine ⟨?_, ?_, ?_⟩
  · intro h
    simp [tool_run_command, h]
  · intro name restw h
    constructor
    · intro hw
      have hw1 : allowed.contains name = false := by
        cases hb : allowed.contains name
        · rfl
        · rw [hb] at hw; simp at hw
      have hw2 : allowed.any (fun p => startsWithS name p) = false := by
        cases hb : allowed.any (fun p => startsWithS name p)
        · rfl
        · rw [hb] at hw; simp at hw
      have he : tool_run_command command allowed e o =
          .refused (runNotAllowedMsg name allowed) := by
        simp only [tool_run_command, h]
        rw [hw1, hw2]
        rfl
      refine ⟨he, ?_⟩
      simp only [runNotAllowedMsg]
      exact hasSub_grow_right _ _ _ (hasSub_pre _ _)
    · intro hw
      have hcond : (!allowed.contains name &&
          !(allowed.any fun p => startsWithS name p)) = false := by
        cases hb : allowed.contains name
        · cases hb2 : allowed.any fun p => startsWithS name p
          · rw [hb, hb2] at hw
            simp at hw
          · simp [hb, hb2]
        · simp [hb]
      simp only [tool_run_command, h]
      rw [hcond]
      rfl
  · unfold capOutput
    by_cases hlen : o.length > 5000
    · rw [if_pos hlen, String.length_append, String.length_mk]
      simp only [List.length_take]
      omega
    · rw [if_neg hlen]
      omega

/-- C9 witness: `rm -rf /` is refused under the whitelist `make, gcc`
(with the message naming the allowed commands) while `make all` runs. -/
theorem tool_run_command_whitelist_witness :
    tool_run_command "rm -rf /" ["make", "gcc"] 0 "out" =
      .refused (runNotAllowedMsg "rm" ["make", "gcc"]) ∧
    hasSub (runNotAllowedMsg "rm" ["make", "gcc"]) (joinStr ", " ["make", "gcc"]) = true ∧
    tool_run_command "make all" ["make", "gcc"] 0 "out" =
      .run "make all" 60 (runResultMsg 0 (capOutput "out")) :=
  ⟨(((tool_run_command_whitelist "rm -rf /" ["make", "gcc"] 0 "out").2.1
      "rm" ["-rf", "/"] rfl).1 (by decide)).1,
   (((tool_run_command_whitelist "rm -rf /" ["make", "gcc"] 0 "out").2.1
      "rm" ["-rf", "/"] rfl).1 (by decide)).2,
   ((tool_run_command_whitelist "make all" ["make", "gcc"] 0 "out").2.1
      "make" ["all"] rfl).2 (by decide)⟩

end AngryAI
